import Mathlib

/-!
Verification of the conversation state machine and slot-booking logic of a
WhatsApp appointment-booking service (FastAPI + Supabase + Gemini).

The Python source is shallowly embedded: the record store (Supabase tables
`doctor_availability` and `appointments`) is a pair of lists, a conditional
update (`.update(...).eq(...)`) is a filtered map over the list, and the
updated rows returned by the store are the rows matched by the predicate.
External collaborators (the Gemini classifier, `dateparser`, the calendar
service, wall-clock time) are oracle inputs quantified universally in the
theorems.  Reply strings are abbreviated to distinct labels; only their
identity matters to the properties proved here.
-/

namespace DoctorAI

/-! ## String helpers (models of the Python `str` methods used by the code) -/

/-- Model of Python `str.strip()` with no argument: drop leading and trailing
whitespace.  (Implemented over the character list so that terms reduce inside
the kernel; the same goes for the other string helpers below.) -/
def pyStrip (s : String) : String :=
  String.mk (((s.toList.dropWhile Char.isWhitespace).reverse.dropWhile
    Char.isWhitespace).reverse)

/-- Model of Python `str.lower()` (ASCII). -/
def pyLower (s : String) : String :=
  String.mk (s.toList.map Char.toLower)

/-- Model of Python `str.upper()` (ASCII). -/
def pyUpper (s : String) : String :=
  String.mk (s.toList.map Char.toUpper)

/-- Split a character list on whitespace runs, dropping empty pieces. -/
def splitWsAux : List Char → List Char → List String
  | [], [] => []
  | [], acc => [String.mk acc.reverse]
  | c :: rest, acc =>
    if c.isWhitespace then
      match acc with
      | [] => splitWsAux rest []
      | _ => String.mk acc.reverse :: splitWsAux rest []
    else splitWsAux rest (c :: acc)

/-- Model of Python `str.split()` with no argument: split on whitespace runs,
dropping empty pieces. -/
def pySplit (s : String) : List String :=
  splitWsAux s.toList []

/-- Model of Python `str.replace(" ", "")`: remove space characters only. -/
def removeSpaces (s : String) : String :=
  String.mk (s.toList.filter (fun c => !(c == ' ')))

/-- Model of Python `str.isdigit()` restricted to ASCII: nonempty and every
character a decimal digit. -/
def pyIsDigit (s : String) : Bool :=
  !s.toList.isEmpty && s.toList.all Char.isDigit

/-- Numeric value of a digit string (used where the code calls `int` on a
string already checked by `isdigit`). -/
def digitsToNat (s : String) : Nat :=
  s.toList.foldl (fun n c => 10 * n + (c.toNat - 48)) 0

/-- Model of Python `int(s)` on a stripped decimal string: optional sign then
one or more ASCII digits; `none` models the `ValueError` the callers catch. -/
def pyInt (s : String) : Option Int :=
  let t := pyStrip s
  match t.toList with
  | '+' :: ds =>
      if !ds.isEmpty && ds.all Char.isDigit then some (digitsToNat (String.mk ds)) else none
  | '-' :: ds =>
      if !ds.isEmpty && ds.all Char.isDigit then some (-(digitsToNat (String.mk ds) : Int)) else none
  | ds =>
      if !ds.isEmpty && ds.all Char.isDigit then some (digitsToNat (String.mk ds)) else none

/-- Model of Python `str.capitalize()`: first character uppercased, the rest
lowercased. -/
def pyCapitalize (s : String) : String :=
  match s.toList with
  | [] => ""
  | c :: rest => String.mk (c.toUpper :: rest.map Char.toLower)

/-- `hasPre hay needle` is true when `needle` is an initial segment of `hay`
(character-list version, used by the substring test below). -/
def hasPre : List Char → List Char → Bool
  | _, [] => true
  | [], _ :: _ => false
  | a :: s, b :: t => a == b && hasPre s t

/-- `hasSubList hay needle`: `needle` occurs contiguously inside `hay`.  Models
the Python `needle in hay` test on strings. -/
def hasSubList : List Char → List Char → Bool
  | [], needle => needle.isEmpty
  | a :: s, needle => hasPre (a :: s) needle || hasSubList s needle

/-- Model of the Python substring test `needle in hay`. -/
def strContains (hay needle : String) : Bool :=
  hasSubList hay.toList needle.toList

/-- Model of `str.startswith(pre)`. -/
def strStarts (s pre : String) : Bool :=
  hasPre s.toList pre.toList

/-! ## Record store state

`doctor_availability` rows and `appointments` rows.  Time instants are minute
counts (`Int`); row ids are `Nat`s drawn from per-table counters. -/

/-- A `doctor_availability` row. -/
structure Slot where
  id : Nat
  slot_start_time : Int
  slot_end_time : Int
  is_booked : Bool
deriving DecidableEq, Repr, Inhabited

/-- An `appointments` row. -/
structure Appointment where
  id : Nat
  patient_id : Nat
  availability_id : Nat
  appointment_time : Int
  status : String
deriving DecidableEq, Repr, Inhabited

/-- The record store: both tables plus id counters for inserts. -/
structure DB where
  slots : List Slot
  appointments : List Appointment
  nextSlotId : Nat
  nextApptId : Nat
deriving DecidableEq, Repr, Inhabited

/-! ## `services/supabase_service.py` operations -/

/-- Outcome of the `appointments` insert inside `book_slot`, as an injected
fault: `ok` is a successful insert returning the new row; `emptyData` is an
insert that returns without data (the `if appointment_result.data` check
fails and the code runs its compensating release); `raises` is an insert that
raises an exception (for example a store or network error), which the
function's own `except Exception` handler turns into a `None` return with no
compensating release. -/
inductive InsertOutcome where
  | ok
  | emptyData
  | raises
deriving DecidableEq, Repr

/-- Model of `book_slot(slot_id, patient_id)`.

The first write is the conditional update
`.update(is_booked=True).eq('id', slot_id).eq('is_booked', False)`: the
predicate is part of the write, and `updated` is the list of rows it matched
(the store's returned `data`).  `ins` injects the outcome of the subsequent
`appointments` insert.  When the insert returns no data the code reverts the
slot with an unconditional `.update(is_booked=False).eq('id', slot_id)`
before returning `None`; when the insert raises, the surrounding
`except Exception` block returns `None` directly, so the reservation is NOT
reverted and the slot stays booked with no appointment row. -/
def book_slot (db : DB) (slot_id patient_id : Nat) (ins : InsertOutcome) :
    Option Appointment × DB :=
  let updated := db.slots.filter (fun s => s.id == slot_id && !s.is_booked)
  let db1 : DB :=
    { db with
      slots := db.slots.map (fun s =>
        if s.id == slot_id && !s.is_booked then { s with is_booked := true } else s) }
  if h : updated = [] then
    (none, db1)
  else
    let s0 := updated.head h
    match ins with
    | InsertOutcome.raises => (none, db1)
    | InsertOutcome.emptyData =>
      (none,
       { db1 with
         slots := db1.slots.map (fun s =>
           if s.id == slot_id then { s with is_booked := false } else s) })
    | InsertOutcome.ok =>
      let appt : Appointment :=
        { id := db1.nextApptId, patient_id := patient_id, availability_id := slot_id,
          appointment_time := s0.slot_start_time, status := "confirmed" }
      (some appt,
       { db1 with
         appointments := db1.appointments ++ [appt],
         nextApptId := db1.nextApptId + 1 })

/-- Model of `find_or_create_availability_slot(start_time, end_time)`.

Looks for a row at exactly `start_time` (the code reads `data[0]`, the first
matching row in store order, modelled by `List.find?`).  If none exists, the
overlap query `.lt('slot_start_time', end).gt('slot_end_time', start)
.eq('is_booked', True)` blocks creation; otherwise a fresh unbooked row is
inserted and returned. -/
def find_or_create_availability_slot (db : DB) (start_time end_time : Int) :
    Option Slot × DB :=
  match db.slots.find? (fun s => s.slot_start_time == start_time) with
  | some s0 => if s0.is_booked then (none, db) else (some s0, db)
  | none =>
    let overlap := db.slots.filter (fun s =>
      s.slot_start_time < end_time && start_time < s.slot_end_time && s.is_booked)
    if overlap = [] then
      let newSlot : Slot :=
        { id := db.nextSlotId, slot_start_time := start_time,
          slot_end_time := end_time, is_booked := false }
      (some newSlot, { db with slots := db.slots ++ [newSlot], nextSlotId := db.nextSlotId + 1 })
    else
      (none, db)

/-- Model of `cancel_appointment(appointment_id, availability_id)`.

Step 1 sets `status='cancelled'` on every `appointments` row with the given id
(the update returns the matched rows; an empty match is the sole hard failure).
Step 2, when a slot id was supplied, unconditionally frees that slot; an empty
match there is only a logged warning, not a failure. -/
def cancel_appointment (db : DB) (appointment_id : Nat) (availability_id : Option Nat) :
    Bool × DB :=
  let matched := db.appointments.filter (fun a => a.id == appointment_id)
  let db1 : DB :=
    { db with
      appointments := db.appointments.map (fun a =>
        if a.id == appointment_id then { a with status := "cancelled" } else a) }
  if matched = [] then
    (false, db1)
  else
    match availability_id with
    | none => (true, db1)
    | some av =>
      (true,
       { db1 with
         slots := db1.slots.map (fun s =>
           if s.id == av then { s with is_booked := false } else s) })

/-- Insert an appointment into a list ordered ascending by `appointment_time`
(models the store's `order('appointment_time', desc=False)`). -/
def insertByTime (a : Appointment) : List Appointment → List Appointment
  | [] => [a]
  | b :: t => if a.appointment_time < b.appointment_time then a :: b :: t
              else b :: insertByTime a t

/-- Sort appointments ascending by time. -/
def sortByTime (l : List Appointment) : List Appointment :=
  l.foldr insertByTime []

/-- Model of `get_upcoming_appointments(patient_id)`: confirmed appointments of
the patient at or after `nowUtc`, ordered ascending by time. -/
def get_upcoming_appointments (db : DB) (patient_id : Nat) (nowUtc : Int) :
    List Appointment :=
  sortByTime (db.appointments.filter (fun a =>
    a.patient_id == patient_id && a.status == "confirmed" && nowUtc ≤ a.appointment_time))

/-! ## Onboarding step machine (`main.py`, gated onboarding flow)

The email check in the source is `re.match(r"[^@]+@[^@]+\.[^@]+", email)`.
`re.match` anchors at the start only, so the string matches iff it decomposes
as `a ++ "@" ++ b ++ "." ++ c ++ rest` with `a`, `b` nonempty and free of `@`,
and `c` a nonempty run of non-`@` characters (one suffices, `rest` is
unconstrained).  Because `a` cannot contain `@`, the matched `@` is the first
`@` of the string; `b` is then an `@`-free segment after it ending at some
later dot followed by a non-`@` character.  `emailDotSearch` scans the part
after the first `@` carrying the number of characters accumulated so far. -/

/-- Scan for `"." ++ c` after the `@`: succeeds at a dot preceded by at least
one (non-`@`) character and followed by a non-`@` character; aborts at an
`@`. -/
def emailDotSearch : List Char → Nat → Bool
  | [], _ => false
  | c :: rest, nb =>
    if c == '@' then false
    else if c == '.' then
      (decide (0 < nb) && (match rest with
                           | [] => false
                           | d :: _ => !(d == '@'))) || emailDotSearch rest (nb + 1)
    else emailDotSearch rest (nb + 1)

/-- Scan for the first `@`, requiring a nonempty `@`-free local part before
it. -/
def emailScan : List Char → Nat → Bool
  | [], _ => false
  | c :: rest, na =>
    if c == '@' then decide (0 < na) && emailDotSearch rest 0
    else emailScan rest (na + 1)

/-- Model of `re.match(r"[^@]+@[^@]+\.[^@]+", email)` being non-`None`. -/
def emailMatch (s : String) : Bool :=
  emailScan s.toList 0

/-- Full-name validation from the `awaiting_name` branch:
`len(full_name.split()) < 2 or not all(part.isalpha() for part in
full_name.replace(" ", ""))` rejects; this is the accepted complement. -/
def validFullName (full_name : String) : Bool :=
  decide (2 ≤ (pySplit full_name).length)
    && (removeSpaces full_name).toList.all Char.isAlpha

/-- Age validation from the `awaiting_age` branch:
`age_str.isdigit() and 1 <= int(age_str) <= 120`. -/
def validAge (age_str : String) : Bool :=
  pyIsDigit age_str && decide (1 ≤ digitsToNat age_str) && decide (digitsToNat age_str ≤ 120)

/-- A profile write issued during onboarding (`update_profile_field` /
`update_patient_email`). -/
inductive ProfWrite where
  | name (v : String)
  | age (v : Nat)
  | gender (v : String)
  | email (v : String)
deriving DecidableEq, Repr

/-- Outcome of one onboarding webhook turn: reply messages, the step written
by `update_patient_onboarding_step` (`none` = step untouched), profile writes,
and whether `complete_profile_update` ran. -/
structure OnbOut where
  msgs : List String
  step2 : Option String
  writes : List ProfWrite
  completedSet : Bool
deriving DecidableEq, Repr

/-- Model of the gated onboarding branch of `whatsapp_webhook` (the
`if not onboarding_completed` block of `main.py`).  Reply strings are
abbreviated labels.  A step value outside the chain falls through every
branch and produces an empty reply with no writes, as in the source. -/
def onboardingHandle (current_step body : String) : OnbOut :=
  if current_step == "start" then
    ⟨["WELCOME_ASK_NAME"], some "awaiting_name", [], false⟩
  else if current_step == "awaiting_name" then
    let full_name := pyStrip body
    if validFullName full_name then
      ⟨["ASK_AGE"], some "awaiting_age", [ProfWrite.name full_name], false⟩
    else
      ⟨["NAME_INVALID"], none, [], false⟩
  else if current_step == "awaiting_age" then
    let age_str := pyStrip body
    if validAge age_str then
      ⟨["ASK_SEX"], some "awaiting_sex", [ProfWrite.age (digitsToNat age_str)], false⟩
    else
      ⟨["AGE_INVALID"], none, [], false⟩
  else if current_step == "awaiting_sex" then
    let sex := pyLower (pyStrip body)
    if sex == "male" || sex == "female" || sex == "other" then
      ⟨["ASK_EMAIL"], some "awaiting_email", [ProfWrite.gender (pyCapitalize sex)], false⟩
    else
      ⟨["SEX_INVALID"], none, [], false⟩
  else if current_step == "awaiting_email" then
    let email := pyStrip body
    if emailMatch email then
      ⟨["PROFILE_COMPLETE"], some "completed", [ProfWrite.email email], true⟩
    else
      ⟨["EMAIL_INVALID"], none, [], false⟩
  else
    ⟨[], none, [], false⟩

/-! ## Intent classification adapter (`services/gemini_service.py`)

Entities are association lists `String × Option String`: Python `None` is
`none`, any concrete entity value is `some`.  The three `re.search` calls of
the fallback are oracle inputs (`RegexOracle`), universally quantified in the
theorems; every keyword/substring/membership test is modelled directly. -/

/-- An analysis result: the structured value `analyze_message` returns. -/
structure Analysis where
  intent : String
  entities : List (String × Option String)
deriving DecidableEq, Repr

/-- First-match lookup in an entity association list (Python `dict` access /
`in` test on keys). -/
def lookupEnt : List (String × Option String) → String → Option (Option String)
  | [], _ => none
  | kv :: t, k => if kv.1 == k then some kv.2 else lookupEnt t k

/-- Model of the Python dict-literal merge with one overridden key: the merge
replaces the value in place when the key is present, otherwise appends. -/
def setEnt (e : List (String × Option String)) (k : String) (v : Option String) :
    List (String × Option String) :=
  if (lookupEnt e k).isSome then
    e.map (fun kv => if kv.1 == k then (k, v) else kv)
  else
    e ++ [(k, v)]

/-- The `required_entities` dict of `analyze_message`: every expected entity
key, explicitly `None`. -/
def required_entities : List (String × Option String) :=
  [("slot_number", none), ("profile_choice", none), ("email", none), ("age", none),
   ("gender", none), ("blood_group", none), ("current_symptoms", none), ("allergies", none),
   ("date_preference", none), ("time_preference", none), ("custom_request", none)]

/-- The `base_entities` dict of `_get_fallback_response` (same eleven keys). -/
def base_entities : List (String × Option String) :=
  [("slot_number", none), ("profile_choice", none), ("email", none), ("age", none),
   ("gender", none), ("blood_group", none), ("current_symptoms", none), ("allergies", none),
   ("date_preference", none), ("time_preference", none), ("custom_request", none)]

/-- Outcomes of the three `re.search` calls inside the fallback, supplied as
oracle inputs: `emailFound` is the matched text of the email pattern searched
in `message`; `timeDigitsLower` is whether the digit-clock pattern
(one or two digits, optional colon or dot, up to two digits, optional spaces,
am or pm) matches `message_lower`; `timeExtract` is group 1 of the analogous
search (with AM and PM variants) in `message`. -/
structure RegexOracle where
  emailFound : Option String := none
  timeDigitsLower : Bool := false
  timeExtract : Option String := none
deriving DecidableEq, Repr

/-- `days_of_week` keyword list. -/
def days_of_week : List String :=
  ["monday", "tuesday", "wednesday", "thursday", "friday", "saturday", "sunday"]

/-- `time_patterns` keyword list. -/
def time_patterns : List String :=
  ["am", "pm", "morning", "afternoon", "evening", "night"]

/-- `date_words` keyword list. -/
def date_words : List String := ["tomorrow", "today", "next", "this"]

/-- `blood_groups` keyword list (searched in order; first substring hit wins). -/
def blood_groups : List String := ["a+", "a-", "b+", "b-", "ab+", "ab-", "o+", "o-"]

/-- `gender_words` mapping, in Python dict insertion order (note `male` is a
substring of `female`, so the order is observable). -/
def gender_words : List (String × String) :=
  [("male", "Male"), ("female", "Female"), ("other", "Other"), ("m", "Male"), ("f", "Female")]

/-- `symptom_keywords` list. -/
def symptom_keywords : List String :=
  ["pain", "ache", "fever", "cough", "headache", "hurt", "sick", "feel", "symptom",
   "today", "currently"]

/-- `profile_keywords` list. -/
def profile_keywords : List String :=
  ["profile", "update", "change", "modify", "information"]

/-- `quick_booking_keywords` list. -/
def quick_booking_keywords : List String := ["quick", "fast", "use existing", "same info"]

/-- `keep_keywords` list (the apostrophe is written as an escape). -/
def keep_keywords : List String :=
  ["keep", "maintain", "same", "no change", "dont change", "don\x27t change"]

/-- `number_match = re.search(r'^(\d+)$', message_lower.strip())`: the whole
(already stripped) string is one or more digits. -/
def numberValue (ml : String) : Bool :=
  pyIsDigit ml

/-- Truthiness-guarded `current_step.startswith('update_')` from the keep
branch (`None` and the empty string are falsy). -/
def stepStartsUpd (cs : Option String) : Bool :=
  match cs with
  | none => false
  | some s => !s.toList.isEmpty && strStarts s "update_"

/-- `message_lower = message.lower().strip()`. -/
def message_lower (message : String) : String :=
  pyStrip (pyLower message)

/-- `has_day`: some weekday name occurs in the lowered message. -/
def has_day (ml : String) : Bool :=
  days_of_week.any (fun d => strContains ml d)

/-- `has_time`: a time keyword occurs, or the digit-clock regex matched. -/
def has_time (ml : String) (rx : RegexOracle) : Bool :=
  time_patterns.any (fun t => strContains ml t) || rx.timeDigitsLower

/-- `has_date_word`. -/
def has_date_word (ml : String) : Bool :=
  date_words.any (fun w => strContains ml w)

/-- `has_other_request`. -/
def has_other_request (ml : String) : Bool :=
  ["other", "different", "custom", "change"].any (fun w => strContains ml w)

/-- `gender_match`: first entry of `gender_words` whose key occurs in the
lowered message (so "female" yields `Male`, since "male" is checked first). -/
def gender_match (ml : String) : Option String :=
  (gender_words.find? (fun p => strContains ml p.1)).map (fun p => p.2)

/-- `blood_group_match`: first blood-group token occurring in the lowered
message, uppercased. -/
def blood_group_match (ml : String) : Option String :=
  (blood_groups.find? (fun bg => strContains ml bg)).map pyUpper

/-- `has_symptoms`. -/
def has_symptoms (ml : String) : Bool :=
  symptom_keywords.any (fun w => strContains ml w)

/-- `has_profile_request`. -/
def has_profile_request (ml : String) : Bool :=
  profile_keywords.any (fun w => strContains ml w)

/-- `has_quick_booking`. -/
def has_quick_booking (ml : String) : Bool :=
  quick_booking_keywords.any (fun w => strContains ml w)

/-- `has_keep_request`. -/
def has_keep_request (ml : String) : Bool :=
  keep_keywords.any (fun w => strContains ml w)

/-- `date_pref` of the custom-date branch: first matching weekday name,
capitalized, else the first matching date word. -/
def date_pref (ml : String) : Option String :=
  ((days_of_week.find? (fun d => strContains ml d)).map pyCapitalize).orElse
    (fun _ => date_words.find? (fun w => strContains ml w))

/-- `time_pref` of the custom-date branch: group 1 of the clock regex when it
matched, else the first matching time keyword. -/
def time_pref (ml : String) (rx : RegexOracle) : Option String :=
  rx.timeExtract.orElse (fun _ => time_patterns.find? (fun t => strContains ml t))

/-- The tail of `_get_fallback_response`, from the keep-request branch to the
final `unknown` default.  The number-interpretation block above it can fall
through into this chain, mirroring the source's sequential `if` returns. -/
def fallbackTail (message : String) (current_step : Option String)
    (_is_onboarding_complete : Bool) (rx : RegexOracle) : Analysis :=
  if has_keep_request (message_lower message) && stepStartsUpd current_step then
    ⟨"keep_current_value", base_entities⟩
  else if rx.emailFound.isSome then
    ⟨"provide_email", setEnt base_entities "email" rx.emailFound⟩
  else if (gender_match (message_lower message)).isSome && current_step == some "gender" then
    ⟨"provide_gender", setEnt base_entities "gender" (gender_match (message_lower message))⟩
  else if (blood_group_match (message_lower message)).isSome
          && current_step == some "blood_group" then
    ⟨"provide_blood_group",
     setEnt base_entities "blood_group" (blood_group_match (message_lower message))⟩
  else if (has_day (message_lower message) && has_time (message_lower message) rx)
          || (has_date_word (message_lower message) && has_time (message_lower message) rx)
          || has_other_request (message_lower message) then
    ⟨"request_custom_date",
     setEnt (setEnt (setEnt base_entities
        "date_preference" (date_pref (message_lower message)))
        "time_preference" (time_pref (message_lower message) rx))
        "custom_request"
          (if has_other_request (message_lower message)
           then some "different timing" else none)⟩
  else if has_quick_booking (message_lower message) then
    ⟨"quick_book_with_profile", base_entities⟩
  else if has_profile_request (message_lower message) then
    ⟨"update_profile_only", base_entities⟩
  else if current_step == some "allergies" || current_step == some "update_allergies" then
    ⟨"provide_allergies",
     setEnt base_entities "allergies"
       (some (if message_lower message == "none" || message_lower message == "no"
                || message_lower message == "nothing" || message_lower message == "nil"
              then "none" else pyStrip message))⟩
  else if current_step == some "current_symptoms"
          && has_symptoms (message_lower message)
          && !numberValue (message_lower message) then
    ⟨"provide_current_symptoms", setEnt base_entities "current_symptoms" (some (pyStrip message))⟩
  else if message_lower message == "hi" || message_lower message == "hello"
          || message_lower message == "hey" || message_lower message == "start" then
    ⟨"greeting", base_entities⟩
  else if ["book appointment", "book", "appointment", "yes"].any
            (fun w => strContains (message_lower message) w) then
    ⟨"start_onboarding", base_entities⟩
  else
    ⟨"unknown", base_entities⟩

/-- Model of `_get_fallback_response(message, current_step,
is_onboarding_complete)`: the deterministic rule-based classifier used when
the Gemini call is unavailable or fails. -/
def get_fallback_response (message : String) (current_step : Option String)
    (is_onboarding_complete : Bool) (rx : RegexOracle) : Analysis :=
  if current_step == some "awaiting_custom_date" then
    ⟨"request_custom_date",
     [("slot_number", none), ("profile_choice", none), ("email", none), ("age", none),
      ("gender", none), ("blood_group", none), ("current_symptoms", none), ("allergies", none),
      ("date_preference", some (pyStrip message)), ("time_preference", none), ("custom_request", none)]⟩
  else if message_lower message == "other" || message_lower message == "others"
          || message_lower message == "different" then
    ⟨"request_custom_date", setEnt base_entities "custom_request" (some "other")⟩
  else if numberValue (message_lower message) then
    if current_step == some "current_symptoms" then
      if message_lower message == "1" || message_lower message == "2"
          || message_lower message == "3" || message_lower message == "4"
          || message_lower message == "5" then
        ⟨"select_slot", setEnt base_entities "slot_number" (some (message_lower message))⟩
      else fallbackTail message current_step is_onboarding_complete rx
    else if is_onboarding_complete
            && (current_step == some "start" || current_step.isNone
                 || current_step == some "completed") then
      if message_lower message == "1" || message_lower message == "2"
          || message_lower message == "3" || message_lower message == "4" then
        ⟨"profile_choice", setEnt base_entities "profile_choice" (some (message_lower message))⟩
      else fallbackTail message current_step is_onboarding_complete rx
    else if current_step == some "age" then
      if decide (1 ≤ digitsToNat (message_lower message))
          && decide (digitsToNat (message_lower message) ≤ 120) then
        ⟨"provide_age", setEnt base_entities "age" (some (message_lower message))⟩
      else fallbackTail message current_step is_onboarding_complete rx
    else fallbackTail message current_step is_onboarding_complete rx
  else fallbackTail message current_step is_onboarding_complete rx

/-- Abstract outcome of the wrapped Gemini call, as `analyze_message` sees it:
`failure` covers every failure mode after its retries (model unavailable,
exceptions, empty responses, uncleanable or structurally invalid JSON);
`ok intent entities` is a successfully parsed object that passed the
`'intent' in result and 'entities' in result` validation. -/
inductive ClassifierOutcome where
  | failure
  | ok (intent : String) (entities : List (String × Option String))
deriving Repr

/-- Model of `analyze_message(message, current_step=...,
is_onboarding_complete=...)`.  Every failure mode routes to the rule-based
fallback; a parsed result has the missing `required_entities` keys appended
with explicit `None` values (`dict.update` of the missing-key comprehension). -/
def analyze_message (message : String) (current_step : Option String)
    (is_onboarding_complete : Bool) (rx : RegexOracle) (outcome : ClassifierOutcome) :
    Analysis :=
  match outcome with
  | .failure => get_fallback_response message current_step is_onboarding_complete rx
  | .ok intent ents =>
    ⟨intent, ents ++ required_entities.filter (fun kv => (lookupEnt ents kv.1).isNone)⟩

/-! ## Calendar arithmetic

`main.py` builds `datetime(year, month, day, hour, minute, tzinfo=IST)` and
compares/converts instants.  Local aware datetimes in one fixed zone compare
as instants, modelled as minute counts from the civil epoch; `astimezone(UTC)`
of an IST instant subtracts the fixed 5:30 offset (330 minutes). -/

/-- Gregorian leap-year test. -/
def isLeapYear (y : Int) : Bool :=
  (y % 4 == 0 && !(y % 100 == 0)) || y % 400 == 0

/-- Days in a month (used by the `datetime` constructor validity check). -/
def daysInMonth (y : Int) (m : Nat) : Nat :=
  if m == 2 then (if isLeapYear y then 29 else 28)
  else if m == 4 || m == 6 || m == 9 || m == 11 then 30
  else 31

/-- Days from 1970-01-01 to the given civil date (standard civil-from-days
inverse; truncated `Int` division as in the reference algorithm). -/
def daysFromCivil (y : Int) (m d : Nat) : Int :=
  let y' : Int := if m ≤ 2 then y - 1 else y
  let era : Int := (if 0 ≤ y' then y' else y' - 399) / 400
  let yoe : Int := y' - era * 400
  let mp : Int := ((m : Int) + 9) % 12
  let doy : Int := (153 * mp + 2) / 5 + (d : Int) - 1
  let doe : Int := yoe * 365 + yoe / 4 - yoe / 100 + doy
  era * 146097 + doe - 719468

/-- Minute count of a local civil datetime. -/
def localMinutes (y : Int) (mo d h mi : Nat) : Int :=
  daysFromCivil y mo d * 1440 + (h : Int) * 60 + (mi : Int)

/-- Validity of the `datetime(year, month, day, hour, minute)` constructor
call; a violation raises `ValueError` in the source. -/
def validDateTime (y : Int) (mo d h mi : Nat) : Bool :=
  decide (1 ≤ y) && decide (y ≤ 9999) && decide (1 ≤ mo) && decide (mo ≤ 12)
    && decide (1 ≤ d) && decide (d ≤ daysInMonth y mo)
    && decide (h ≤ 23) && decide (mi ≤ 59)

/-! ## Patient state and webhook environment (`main.py`)

The ephemeral booking context is the JSON scratch-pad the code keeps in the
patient's `notes` column.  Inside the webhook model it is carried as a
structured value: `store_booking_context` writes a whole context (dict), and
`get_booking_context` reads it back; the JSON round-trip itself is modelled
separately (string level) for the `get_booking_context` claim.  `Option`
fields are keys that may be absent from the dict. -/

/-- The booking-context dict. `{}` (all fields absent) is the cleared
context. -/
structure Ctx where
  month_options : Option (List (String × Int × Nat)) := none
  year : Option Int := none
  month : Option Nat := none
  month_name : Option String := none
  day : Option Nat := none
  appointments : Option (List Appointment) := none
deriving DecidableEq, Repr, Inhabited

/-- Patient row fields the webhook reads and writes. -/
structure PatientState where
  id : Nat
  full_name : String := ""
  age : Option Nat := none
  gender : Option String := none
  email : Option String := none
  onboarding_step : String := "start"
  onboarding_completed : Bool := false
  ctx : Ctx := {}
deriving DecidableEq, Repr

/-- Environment of one webhook request: the oracle outcomes of every external
collaborator touched while handling it.
`parsedTime` is the `(hour, minute)` of `dateparser.parse(Body.strip())`
(`none` = unparseable); `nowLocalMin` is `datetime.now(IST)` and `nowUtc` is
`datetime.now(UTC)` in minutes; `monthOptions` is the three-month enumeration
built from `datetime.now()` (name, year, month triples); `calendarLink` is
the Google link of a successful calendar-event creation; `insertOutcome` is
the injected outcome of the appointment insert inside `book_slot`; `fault` injects an
arbitrary infrastructure exception at the top of the handler body (any
uncaught Python exception); `patientFound` is whether `find_or_create_patient`
returned a row. -/
structure Env where
  patientFound : Bool := true
  outcome : ClassifierOutcome := ClassifierOutcome.failure
  rx : RegexOracle := {}
  parsedTime : Option (Nat × Nat) := none
  nowLocalMin : Int := 0
  nowUtc : Int := 0
  monthOptions : List (String × Int × Nat) := []
  calendarLink : Option String := none
  insertOutcome : InsertOutcome := InsertOutcome.ok
  fault : Option String := none

/-- The generic apology of the webhook's outer `except` block. -/
def apologyMsg : String := "SYSTEM_ERROR_APOLOGY"

/-- The confirmation reply, with the optional add-to-calendar footer. -/
def confirmedMsg (link : Option String) : String :=
  match link with
  | some _ => "BOOKING_CONFIRMED_WITH_CALENDAR_LINK"
  | none => "BOOKING_CONFIRMED"

/-- Model of the `awaiting_time_selection` branch of the webhook.

Reads `year`/`month`/`day` from the booking context (`KeyError` if absent),
consumes the `dateparser` oracle, validates the clinic window
`10 <= hour < 22` and the not-in-the-past rule on the IST instant, then runs
`find_or_create_availability_slot` and `book_slot` on the UTC instants.  The
step/context writes (`store_booking_context({})`, step back to `start`)
happen only in the fully successful branch, as in the source. -/
def awaiting_time_selection_handler (p : PatientState) (env : Env) (db : DB) :
    Except String (List String) × PatientState × DB :=
  match env.parsedTime with
  | none => (Except.ok ["TIME_NOT_UNDERSTOOD"], p, db)
  | some (h, mi) =>
    match p.ctx.year, p.ctx.month, p.ctx.day with
    | some y, some mo, some d =>
      if !validDateTime y mo d h mi then (Except.error "ValueError", p, db)
      else if !(decide (10 ≤ h) && decide (h < 22)) then
        (Except.ok ["CLINIC_HOURS_10_TO_22"], p, db)
      else if localMinutes y mo d h mi < env.nowLocalMin then
        (Except.ok ["TIME_IN_PAST"], p, db)
      else
        let start_time_utc := localMinutes y mo d h mi - 330
        let end_time_utc := start_time_utc + 30
        match find_or_create_availability_slot db start_time_utc end_time_utc with
        | (none, db1) => (Except.ok ["SLOT_ALREADY_TAKEN"], p, db1)
        | (some slot, db1) =>
          match book_slot db1 slot.id p.id env.insertOutcome with
          | (none, db2) => (Except.ok ["TIME_JUST_BOOKED"], p, db2)
          | (some _, db2) =>
            (Except.ok [confirmedMsg env.calendarLink],
             { p with onboarding_step := "start", ctx := {} }, db2)
    | _, _, _ => (Except.error "KeyError", p, db)

/-- Model of the post-onboarding conversational router (the
`elif`/`else` chain of `whatsapp_webhook` after `analyze_message`), taking
the already-lowercased classified intent.  Dispatch order is the source's:
greeting-while-mid-flow forced reset first, then the `awaiting_*` step
handlers, then top-level intents. -/
def routeCompleted (p : PatientState) (body : String) (intent : String)
    (db : DB) (env : Env) : Except String (List String) × PatientState × DB :=
  if intent == "greeting" && !(p.onboarding_step == "start") && !(p.onboarding_step == "completed") then
    (Except.ok ["RESET_START_OVER"], { p with onboarding_step := "start", ctx := {} }, db)
  else if strStarts p.onboarding_step "awaiting_" then
    if p.onboarding_step == "awaiting_cancellation_choice" then
      let appts := p.ctx.appointments.getD []
      match pyInt (pyStrip body) with
      | none => (Except.ok ["REPLY_WITH_NUMBER_TO_CANCEL"], p, db)
      | some choice =>
        if decide (1 ≤ choice) && decide (choice ≤ (appts.length : Int)) then
          let a := appts.getD (choice - 1).toNat default
          let r := cancel_appointment db a.id (some a.availability_id)
          (Except.ok [if r.1 then "CANCELLED_OK" else "CANCEL_ERROR"],
           { p with onboarding_step := "start", ctx := {} }, r.2)
        else
          (Except.ok ["NOT_A_VALID_NUMBER"], p, db)
    else if p.onboarding_step == "awaiting_reschedule_choice" then
      let appts := p.ctx.appointments.getD []
      match pyInt (pyStrip body) with
      | none => (Except.ok ["REPLY_WITH_NUMBER_TO_RESCHEDULE"], p, db)
      | some choice =>
        if decide (1 ≤ choice) && decide (choice ≤ (appts.length : Int)) then
          let a := appts.getD (choice - 1).toNat default
          let r := cancel_appointment db a.id (some a.availability_id)
          (Except.ok ["OLD_CANCELLED_CHOOSE_MONTH"],
           { p with onboarding_step := "awaiting_month_selection",
                    ctx := { month_options := some env.monthOptions } }, r.2)
        else
          (Except.ok ["NOT_A_VALID_NUMBER"], p, db)
    else if p.onboarding_step == "awaiting_month_selection" then
      let opts := p.ctx.month_options.getD []
      match pyInt (pyStrip body) with
      | none => (Except.ok ["REPLY_WITH_MONTH_NUMBER"], p, db)
      | some choice =>
        if decide (1 ≤ choice) && decide (choice ≤ (opts.length : Int)) then
          let o := opts.getD (choice - 1).toNat default
          (Except.ok ["ASK_DATE"],
           { p with onboarding_step := "awaiting_date_selection",
                    ctx := { year := some o.2.1, month := some o.2.2,
                             month_name := some o.1 } }, db)
        else
          (Except.ok ["SELECT_VALID_MONTH"], p, db)
    else if p.onboarding_step == "awaiting_date_selection" then
      match pyInt (pyStrip body) with
      | none => (Except.ok ["VALID_DATE_NUMBER_PLEASE"], p, db)
      | some day =>
        if decide (1 ≤ day) && decide (day ≤ (31 : Int)) then
          (Except.ok ["ASK_TIME"],
           { p with onboarding_step := "awaiting_time_selection",
                    ctx := { p.ctx with day := some day.toNat } }, db)
        else
          (Except.ok ["VALID_DATE_NUMBER_PLEASE"], p, db)
    else if p.onboarding_step == "awaiting_time_selection" then
      awaiting_time_selection_handler p env db
    else
      (Except.ok [], p, db)
  else if intent == "request_booking" then
    (Except.ok ["CHOOSE_MONTH"],
     { p with onboarding_step := "awaiting_month_selection",
              ctx := { month_options := some env.monthOptions } }, db)
  else if intent == "request_cancellation" then
    let ups := get_upcoming_appointments db p.id env.nowUtc
    if ups = [] then (Except.ok ["NO_UPCOMING_TO_CANCEL"], p, db)
    else
      (Except.ok ["WHICH_TO_CANCEL"],
       { p with onboarding_step := "awaiting_cancellation_choice",
                ctx := { appointments := some ups } }, db)
  else if intent == "request_reschedule" then
    let ups := get_upcoming_appointments db p.id env.nowUtc
    if ups = [] then (Except.ok ["NO_UPCOMING_TO_RESCHEDULE"], p, db)
    else
      (Except.ok ["WHICH_TO_RESCHEDULE"],
       { p with onboarding_step := "awaiting_reschedule_choice",
                ctx := { appointments := some ups } }, db)
  else if intent == "dermatology_query" then
    (Except.ok [], p, db)
  else if intent == "greeting" then
    match pySplit p.full_name with
    | [] => (Except.error "IndexError", p, db)
    | _ :: _ => (Except.ok ["HELLO_HOW_CAN_I_HELP"], p, db)
  else
    (Except.ok ["DID_NOT_UNDERSTAND"], p, db)

/-- Apply one onboarding profile write to the patient row. -/
def applyWrite (p : PatientState) : ProfWrite → PatientState
  | ProfWrite.name v => { p with full_name := v }
  | ProfWrite.age v => { p with age := some v }
  | ProfWrite.gender v => { p with gender := some v }
  | ProfWrite.email v => { p with email := some v }

/-- Apply an onboarding turn's writes, step transition and completion flag. -/
def applyOnb (p : PatientState) (o : OnbOut) : PatientState :=
  let p1 := o.writes.foldl applyWrite p
  let p2 := match o.step2 with
            | some s => { p1 with onboarding_step := s }
            | none => p1
  if o.completedSet then { p2 with onboarding_completed := true } else p2

/-- The body of `whatsapp_webhook` inside its `try`: either a reply payload
(list of messages) or an uncaught exception, plus the patient/store state at
exit.  `env.fault` injects an arbitrary exception at the top (any
infrastructure failure); the modelled exception sources inside the body are
the `KeyError`/`ValueError`/`IndexError` sites of the source. -/
def pipelineBody (p : PatientState) (body : String) (db : DB) (env : Env) :
    Except String (List String) × PatientState × DB :=
  match env.fault with
  | some e => (Except.error e, p, db)
  | none =>
    if !env.patientFound then (Except.ok ["SYSTEM_DIFFICULTIES"], p, db)
    else if !p.onboarding_completed then
      let o := onboardingHandle p.onboarding_step body
      (Except.ok o.msgs, applyOnb p o, db)
    else
      let analysis := analyze_message body (some p.onboarding_step) false env.rx env.outcome
      routeCompleted p body (pyLower analysis.intent) db env

/-- Model of `whatsapp_webhook`: the `try`/`except` boundary around the body.
Any exception is converted into the single generic apology reply; state
changes made before the failure point persist. -/
def whatsapp_webhook (p : PatientState) (body : String) (db : DB) (env : Env) :
    List String × PatientState × DB :=
  match pipelineBody p body db env with
  | (Except.ok msgs, p', db') => (msgs, p', db')
  | (Except.error _, p', db') => ([apologyMsg], p', db')

/-! ## String-level booking-context read (`get_booking_context`)

`get_booking_context` runs `json.loads` on the patient's raw `notes` string
and converts any `JSONDecodeError`/`TypeError` (and any falsy `notes`) into
the empty context.  `jsonLoads` below is an executable recursive-descent
parser for the JSON accepted by `json.loads` (objects as association lists in
document order, numbers kept as lexemes, `NaN`/`Infinity` accepted as Python
does; a `\u` escape denoting a lone surrogate is simplified to the null
character). -/

/-- A parsed JSON value. -/
inductive JValue where
  | null
  | boolean (b : Bool)
  | num (lexeme : String)
  | str (s : String)
  | arr (xs : List JValue)
  | obj (fields : List (String × JValue))
deriving Repr, BEq

/-- Skip JSON whitespace. -/
def jsonWs (cs : List Char) : List Char :=
  cs.dropWhile (fun c => c == ' ' || c == '\t' || c == '\n' || c == '\r')

/-- Hexadecimal digit value. -/
def hexVal (c : Char) : Option Nat :=
  if '0' ≤ c && c ≤ '9' then some (c.toNat - 48)
  else if 'a' ≤ c && c ≤ 'f' then some (c.toNat - 87)
  else if 'A' ≤ c && c ≤ 'F' then some (c.toNat - 55)
  else none

/-- Parse the body of a JSON string after the opening quote. -/
def parseJStr : Nat → List Char → List Char → Option (String × List Char)
  | 0, _, _ => none
  | _ + 1, acc, '"' :: rest => some (String.mk acc.reverse, rest)
  | fuel + 1, acc, '\\' :: e :: rest =>
    if e == '"' then parseJStr fuel ('"' :: acc) rest
    else if e == '\\' then parseJStr fuel ('\\' :: acc) rest
    else if e == '/' then parseJStr fuel ('/' :: acc) rest
    else if e == 'b' then parseJStr fuel (Char.ofNat 8 :: acc) rest
    else if e == 'f' then parseJStr fuel (Char.ofNat 12 :: acc) rest
    else if e == 'n' then parseJStr fuel ('\n' :: acc) rest
    else if e == 'r' then parseJStr fuel ('\r' :: acc) rest
    else if e == 't' then parseJStr fuel ('\t' :: acc) rest
    else if e == 'u' then
      match rest with
      | h1 :: h2 :: h3 :: h4 :: rest' =>
        match hexVal h1, hexVal h2, hexVal h3, hexVal h4 with
        | some a, some b, some c, some d =>
          parseJStr fuel (Char.ofNat (((a * 16 + b) * 16 + c) * 16 + d) :: acc) rest'
        | _, _, _, _ => none
      | _ => none
    else none
  | fuel + 1, acc, c :: rest =>
    if c.toNat < 32 then none else parseJStr fuel (c :: acc) rest
  | _, _, [] => none

/-- Split a leading run of decimal digits. -/
def spanDigits (cs : List Char) : List Char × List Char :=
  (cs.takeWhile Char.isDigit, cs.dropWhile Char.isDigit)

/-- Parse a JSON number (or Python-accepted `NaN`/`Infinity`/`-Infinity`),
returning its lexeme. -/
def parseJNum (cs : List Char) : Option (String × List Char) :=
  let core : List Char → Option (List Char × List Char) := fun l =>
    match l with
    | '0' :: rest => some (['0'], rest)
    | c :: _ =>
      if c.isDigit then
        let (ds, rest) := spanDigits l
        some (ds, rest)
      else none
    | [] => none
  let frac : List Char → Option (List Char × List Char) := fun l =>
    match l with
    | '.' :: rest =>
      let (ds, rest') := spanDigits rest
      if ds.isEmpty then none else some ('.' :: ds, rest')
    | _ => some ([], l)
  let expo : List Char → Option (List Char × List Char) := fun l =>
    match l with
    | e :: rest =>
      if e == 'e' || e == 'E' then
        let (sgn, rest') :=
          match rest with
          | s :: r => if s == '+' || s == '-' then ([s], r) else (([] : List Char), rest)
          | [] => ([], rest)
        let (ds, rest'') := spanDigits rest'
        if ds.isEmpty then none else some (e :: (sgn ++ ds), rest'')
      else some ([], l)
    | [] => some ([], l)
  match cs with
  | 'N' :: 'a' :: 'N' :: rest => some ("NaN", rest)
  | 'I' :: 'n' :: 'f' :: 'i' :: 'n' :: 'i' :: 't' :: 'y' :: rest => some ("Infinity", rest)
  | '-' :: 'I' :: 'n' :: 'f' :: 'i' :: 'n' :: 'i' :: 't' :: 'y' :: rest =>
    some ("-Infinity", rest)
  | '-' :: rest => do
    let (i, r1) ← core rest
    let (f, r2) ← frac r1
    let (x, r3) ← expo r2
    pure (String.mk ('-' :: (i ++ f ++ x)), r3)
  | _ => do
    let (i, r1) ← core cs
    let (f, r2) ← frac r1
    let (x, r3) ← expo r2
    pure (String.mk (i ++ f ++ x), r3)

mutual

/-- Parse one JSON value (leading whitespace allowed). -/
def parseJValue : Nat → List Char → Option (JValue × List Char)
  | 0, _ => none
  | fuel + 1, cs =>
    match jsonWs cs with
    | [] => none
    | c :: rest =>
      if c == '{' then
        match parseJMembers fuel rest with
        | some (fields, r) => some (JValue.obj fields, r)
        | none => none
      else if c == '[' then
        match parseJElems fuel rest with
        | some (xs, r) => some (JValue.arr xs, r)
        | none => none
      else if c == '"' then
        match parseJStr (rest.length + 1) [] rest with
        | some (s, r) => some (JValue.str s, r)
        | none => none
      else if c == 't' then
        match rest with
        | 'r' :: 'u' :: 'e' :: r => some (JValue.boolean true, r)
        | _ => none
      else if c == 'f' then
        match rest with
        | 'a' :: 'l' :: 's' :: 'e' :: r => some (JValue.boolean false, r)
        | _ => none
      else if c == 'n' then
        match rest with
        | 'u' :: 'l' :: 'l' :: r => some (JValue.null, r)
        | _ => none
      else
        match parseJNum (c :: rest) with
        | some (lex, r) => some (JValue.num lex, r)
        | none => none

/-- Parse object members after the opening brace (handles the empty object). -/
def parseJMembers : Nat → List Char → Option (List (String × JValue) × List Char)
  | 0, _ => none
  | fuel + 1, cs =>
    match jsonWs cs with
    | '}' :: rest => some ([], rest)
    | cs' => parseJMemberList fuel cs'

/-- Parse a nonempty comma-separated member list up to the closing brace. -/
def parseJMemberList : Nat → List Char → Option (List (String × JValue) × List Char)
  | 0, _ => none
  | fuel + 1, cs =>
    match jsonWs cs with
    | '"' :: rest =>
      match parseJStr (rest.length + 1) [] rest with
      | some (k, cs1) =>
        (match jsonWs cs1 with
         | ':' :: cs2 =>
           match parseJValue fuel cs2 with
           | some (v, cs3) =>
             (match jsonWs cs3 with
              | ',' :: cs4 =>
                (match parseJMemberList fuel cs4 with
                 | some (more, cs5) => some ((k, v) :: more, cs5)
                 | none => none)
              | '}' :: cs4 => some ([(k, v)], cs4)
              | _ => none)
           | none => none
         | _ => none)
      | none => none
    | _ => none

/-- Parse array elements after the opening bracket (handles the empty array). -/
def parseJElems : Nat → List Char → Option (List JValue × List Char)
  | 0, _ => none
  | fuel + 1, cs =>
    match jsonWs cs with
    | ']' :: rest => some ([], rest)
    | cs' => parseJElemList fuel cs'

/-- Parse a nonempty comma-separated element list up to the closing bracket. -/
def parseJElemList : Nat → List Char → Option (List JValue × List Char)
  | 0, _ => none
  | fuel + 1, cs =>
    match parseJValue fuel cs with
    | some (v, cs1) =>
      (match jsonWs cs1 with
       | ',' :: cs2 =>
         (match parseJElemList fuel cs2 with
          | some (more, cs3) => some (v :: more, cs3)
          | none => none)
       | ']' :: cs2 => some ([v], cs2)
       | _ => none)
    | none => none

end

/-- Model of `json.loads`: parse one value and require only whitespace after
it. -/
def jsonLoads (s : String) : Option JValue :=
  match parseJValue (4 * s.toList.length + 8) s.toList with
  | some (v, rest) => if jsonWs rest = [] then some v else none
  | none => none

/-- Model of `get_booking_context(patient)`: returns the parsed `notes`
value when `notes` is truthy and parses, and the empty dict when `notes` is
absent/`None`/empty (falsy) or fails to parse (the caught
`JSONDecodeError`/`TypeError`). -/
def get_booking_context (notes : Option String) : JValue :=
  match notes with
  | none => JValue.obj []
  | some s =>
    if s == "" then JValue.obj []
    else
      match jsonLoads s with
      | some v => v
      | none => JValue.obj []

/-! ## Helper lemmas -/

/-- A map whose function fixes every element of the list is the identity. -/
theorem map_eq_self_of_all {α : Type} (l : List α) (f : α → α) (h : ∀ a ∈ l, f a = a) :
    l.map f = l := by
  induction l with
  | nil => rfl
  | cons x t ih =>
    simp only [List.map_cons, List.cons.injEq]
    exact ⟨h x (List.mem_cons_self x t), ih (fun a ha => h a (List.mem_cons_of_mem x ha))⟩

/-- The conditional-reservation predicate is false on a slot that is booked
whenever it carries the reserved id. -/
theorem slot_pred_false {slot_id : Nat} (s : Slot)
    (h : s.id = slot_id → s.is_booked = true) :
    (s.id == slot_id && !s.is_booked) = false := by
  by_cases hid : s.id = slot_id
  · simp [hid, h hid]
  · simp [hid]

/-! ## Claim theorems -/

/-- C2: a `book` call on a slot whose `is_booked` flag is already true at the
time of the conditional update matches no row, returns the failure value
`None`, creates no appointment row and leaves the store unchanged — for any
injected insert outcome, since the insert is never reached.  The predicate
`is_booked = false` is part of the write itself in `book_slot`. -/
theorem book_slot_conflict (db : DB) (slot_id patient_id : Nat) (ins : InsertOutcome)
    (h : ∀ s ∈ db.slots, s.id = slot_id → s.is_booked = true) :
    book_slot db slot_id patient_id ins = (none, db) := by
  have hfilter : db.slots.filter (fun s => s.id == slot_id && !s.is_booked) = [] := by
    rw [List.filter_eq_nil_iff]
    intro s hs
    simp [slot_pred_false s (h s hs)]
  have hmap : db.slots.map (fun s =>
      if s.id == slot_id && !s.is_booked then { s with is_booked := true } else s) = db.slots := by
    apply map_eq_self_of_all
    intro s hs
    simp [slot_pred_false s (h s hs)]
  simp only [book_slot]
  rw [hfilter, hmap]
  simp

/-- C2 witness: a store with one booked slot; the call fails and changes
nothing, even under the raising insert mode. -/
theorem book_slot_conflict_witness :
    book_slot ⟨[⟨1, 100, 130, true⟩], [], 2, 1⟩ 1 7 InsertOutcome.raises =
      (none, ⟨[⟨1, 100, 130, true⟩], [], 2, 1⟩) :=
  book_slot_conflict ⟨[⟨1, 100, 130, true⟩], [], 2, 1⟩ 1 7 InsertOutcome.raises (by decide)

/-- C1: evidence for the code bug.  On the same store with one free slot,
the two insert-failure modes of the source diverge: an insert that raises an
exception is swallowed by the function's `except Exception` handler, which
returns the failure value while the reservation is still in place —
`is_booked` stays true with no appointment row, the exact half-applied state
the claim (the spec's compensating-release rule, and the code's own comment
"we must un-book the slot to prevent it from being locked") says is never
left behind — whereas an insert that merely returns no data takes the
compensating branch and leaves the slot free.  So the claim fails on the
exception path and holds only on the empty-data path. -/
theorem book_slot_exception_leaves_slot_locked :
    book_slot ⟨[⟨1, 100, 130, false⟩], [], 2, 1⟩ 1 7 InsertOutcome.raises =
      (none, ⟨[⟨1, 100, 130, true⟩], [], 2, 1⟩) ∧
    book_slot ⟨[⟨1, 100, 130, false⟩], [], 2, 1⟩ 1 7 InsertOutcome.emptyData =
      (none, ⟨[⟨1, 100, 130, false⟩], [], 2, 1⟩) :=
  ⟨by decide, by decide⟩

/-- C3: `cancel` is idempotent.  Given an existing appointment row, both the
first and the second call with the same appointment and slot ids return
success, every row with the appointment id ends cancelled and every slot row
with the slot id ends free; freeing a missing slot is only a soft warning
(success needs no hypothesis about the slot).  The sole hard failure is an
appointment id matching no row, which returns `false` and leaves the store
unchanged. -/
theorem cancel_appointment_idempotent (db : DB) (appointment_id sid : Nat) :
    ((∃ a ∈ db.appointments, a.id = appointment_id) →
      (cancel_appointment db appointment_id (some sid)).1 = true ∧
      (cancel_appointment (cancel_appointment db appointment_id (some sid)).2
          appointment_id (some sid)).1 = true ∧
      (∀ a ∈ (cancel_appointment (cancel_appointment db appointment_id (some sid)).2
          appointment_id (some sid)).2.appointments,
        a.id = appointment_id → a.status = "cancelled") ∧
      (∀ s ∈ (cancel_appointment (cancel_appointment db appointment_id (some sid)).2
          appointment_id (some sid)).2.slots,
        s.id = sid → s.is_booked = false)) ∧
    ((∀ a ∈ db.appointments, a.id ≠ appointment_id) →
      cancel_appointment db appointment_id (some sid) = (false, db)) := by
  constructor
  · rintro ⟨a0, ha0, haid⟩
    have hmem1 : a0 ∈ db.appointments.filter (fun a => a.id == appointment_id) :=
      List.mem_filter.mpr ⟨ha0, by simp [haid]⟩
    have hne1 : db.appointments.filter (fun a => a.id == appointment_id) ≠ [] :=
      List.ne_nil_of_mem hmem1
    have hstep1 : cancel_appointment db appointment_id (some sid) =
        (true,
         { db with
           appointments := db.appointments.map (fun a =>
             if a.id == appointment_id then { a with status := "cancelled" } else a),
           slots := db.slots.map (fun s =>
             if s.id == sid then { s with is_booked := false } else s) }) := by
      simp only [cancel_appointment]
      rw [if_neg hne1]
    set g := fun a : Appointment =>
      if a.id == appointment_id then { a with status := "cancelled" } else a with hg
    set f := fun s : Slot => if s.id == sid then { s with is_booked := false } else s with hf
    have hmem2 : g a0 ∈ (db.appointments.map g).filter (fun a => a.id == appointment_id) := by
      refine List.mem_filter.mpr ⟨List.mem_map.mpr ⟨a0, ha0, rfl⟩, ?_⟩
      simp [hg, haid]
    have hne2 : (db.appointments.map g).filter (fun a => a.id == appointment_id) ≠ [] :=
      List.ne_nil_of_mem hmem2
    have hstep2 : cancel_appointment
        (cancel_appointment db appointment_id (some sid)).2 appointment_id (some sid) =
        (true,
         { db with
           appointments := (db.appointments.map g).map g,
           slots := (db.slots.map f).map f }) := by
      rw [hstep1]
      simp only [cancel_appointment]
      rw [if_neg hne2]
    refine ⟨by rw [hstep1], by rw [hstep2], ?_, ?_⟩
    · intro a ha hai
      rw [hstep2] at ha
      simp only [List.map_map] at ha
      obtain ⟨t, ht, rfl⟩ := List.mem_map.mp ha
      by_cases h1 : t.id = appointment_id
      · simp [hg, Function.comp, h1]
      · exfalso
        apply h1
        simp [hg, Function.comp, h1] at hai
    · intro s hs hsi
      rw [hstep2] at hs
      simp only [List.map_map] at hs
      obtain ⟨t, ht, rfl⟩ := List.mem_map.mp hs
      by_cases h1 : t.id = sid
      · simp [hf, Function.comp, h1]
      · exfalso
        apply h1
        simp [hf, Function.comp, h1] at hsi
  · intro h
    have hfilter : db.appointments.filter (fun a => a.id == appointment_id) = [] := by
      rw [List.filter_eq_nil_iff]
      intro a ha
      simp [h a ha]
    have hmap : db.appointments.map (fun a =>
        if a.id == appointment_id then { a with status := "cancelled" } else a) =
        db.appointments := by
      apply map_eq_self_of_all
      intro a ha
      simp [h a ha]
    simp only [cancel_appointment]
    rw [hfilter, hmap]
    simp

/-- C3 witness: a store with one confirmed appointment on one booked slot; the
double cancellation succeeds twice, the appointment ends cancelled and the
slot ends free. -/
theorem cancel_appointment_idempotent_witness :
    (cancel_appointment ⟨[⟨1, 100, 130, true⟩], [⟨5, 7, 1, 100, "confirmed"⟩], 2, 6⟩
        5 (some 1)).1 = true ∧
    (cancel_appointment
        (cancel_appointment ⟨[⟨1, 100, 130, true⟩], [⟨5, 7, 1, 100, "confirmed"⟩], 2, 6⟩
          5 (some 1)).2 5 (some 1)).1 = true ∧
    (∀ a ∈ (cancel_appointment
        (cancel_appointment ⟨[⟨1, 100, 130, true⟩], [⟨5, 7, 1, 100, "confirmed"⟩], 2, 6⟩
          5 (some 1)).2 5 (some 1)).2.appointments,
      a.id = 5 → a.status = "cancelled") ∧
    (∀ s ∈ (cancel_appointment
        (cancel_appointment ⟨[⟨1, 100, 130, true⟩], [⟨5, 7, 1, 100, "confirmed"⟩], 2, 6⟩
          5 (some 1)).2 5 (some 1)).2.slots,
      s.id = 1 → s.is_booked = false) :=
  (cancel_appointment_idempotent ⟨[⟨1, 100, 130, true⟩], [⟨5, 7, 1, 100, "confirmed"⟩], 2, 6⟩
      5 1).1 ⟨⟨5, 7, 1, 100, "confirmed"⟩, by decide, rfl⟩

/-- C4: `find_or_create` behaviour.  If a row exists at exactly the requested
start (the looked-up row, `data[0]`), it is returned when free and the call
is a conflict when it is booked, the store unchanged either way.  If no row
exists at the start, the call is a conflict exactly when some booked row's
window overlaps the requested one; when every overlapping row is unbooked a
fresh free row is inserted and returned, so free rows never block creation. -/
theorem find_or_create_slot_spec (db : DB) (start_time end_time : Int) :
    (∀ s0, db.slots.find? (fun s => s.slot_start_time == start_time) = some s0 →
      (s0.is_booked = true →
        find_or_create_availability_slot db start_time end_time = (none, db)) ∧
      (s0.is_booked = false →
        find_or_create_availability_slot db start_time end_time = (some s0, db))) ∧
    (db.slots.find? (fun s => s.slot_start_time == start_time) = none →
      ((∃ s ∈ db.slots, s.is_booked = true ∧ s.slot_start_time < end_time ∧
          start_time < s.slot_end_time) →
        find_or_create_availability_slot db start_time end_time = (none, db)) ∧
      ((∀ s ∈ db.slots, s.slot_start_time < end_time → start_time < s.slot_end_time →
          s.is_booked = false) →
        find_or_create_availability_slot db start_time end_time =
          (some { id := db.nextSlotId, slot_start_time := start_time,
                  slot_end_time := end_time, is_booked := false },
           { db with
             slots := db.slots ++ [{ id := db.nextSlotId, slot_start_time := start_time,
                                     slot_end_time := end_time, is_booked := false }],
             nextSlotId := db.nextSlotId + 1 }))) := by
  constructor
  · intro s0 hfind
    constructor
    · intro hb
      simp only [find_or_create_availability_slot]
      rw [hfind]
      simp [hb]
    · intro hb
      simp only [find_or_create_availability_slot]
      rw [hfind]
      simp [hb]
  · intro hfind
    constructor
    · rintro ⟨s, hs, hb, hlt, hgt⟩
      have hmem : s ∈ db.slots.filter (fun s =>
          s.slot_start_time < end_time && start_time < s.slot_end_time && s.is_booked) :=
        List.mem_filter.mpr ⟨hs, by simp [hb, hlt, hgt]⟩
      have hne : db.slots.filter (fun s =>
          s.slot_start_time < end_time && start_time < s.slot_end_time && s.is_booked) ≠ [] :=
        List.ne_nil_of_mem hmem
      simp only [find_or_create_availability_slot]
      rw [hfind]
      simp only [if_neg hne]
    · intro hall
      have hfilter : db.slots.filter (fun s =>
          s.slot_start_time < end_time && start_time < s.slot_end_time && s.is_booked) = [] := by
        rw [List.filter_eq_nil_iff]
        intro s hs
        by_cases h1 : s.slot_start_time < end_time
        · by_cases h2 : start_time < s.slot_end_time
          · simp [h1, h2, hall s hs h1 h2]
          · simp [h2]
        · simp [h1]
      simp only [find_or_create_availability_slot]
      rw [hfind]
      simp only [if_pos hfilter]

/-- C4 witness: a store holding one booked slot over 100-130 and one free slot
over 200-230.  A request at the taken start is returned free at 200, blocked
by booked overlap at 110, and freshly created at 300 where only a free row
would overlap. -/
theorem find_or_create_slot_spec_witness :
    find_or_create_availability_slot ⟨[⟨1, 100, 130, true⟩, ⟨2, 200, 230, false⟩], [], 3, 1⟩
        100 130 = (none, ⟨[⟨1, 100, 130, true⟩, ⟨2, 200, 230, false⟩], [], 3, 1⟩) ∧
    find_or_create_availability_slot ⟨[⟨1, 100, 130, true⟩, ⟨2, 200, 230, false⟩], [], 3, 1⟩
        200 230 = (some ⟨2, 200, 230, false⟩, ⟨[⟨1, 100, 130, true⟩, ⟨2, 200, 230, false⟩], [], 3, 1⟩) ∧
    find_or_create_availability_slot ⟨[⟨1, 100, 130, true⟩, ⟨2, 200, 230, false⟩], [], 3, 1⟩
        110 140 = (none, ⟨[⟨1, 100, 130, true⟩, ⟨2, 200, 230, false⟩], [], 3, 1⟩) ∧
    (find_or_create_availability_slot ⟨[⟨1, 100, 130, true⟩, ⟨2, 200, 230, false⟩], [], 3, 1⟩
        210 240).1 = some ⟨3, 210, 240, false⟩ := by
  refine ⟨?_, ?_, ?_, ?_⟩
  · exact ((find_or_create_slot_spec ⟨[⟨1, 100, 130, true⟩, ⟨2, 200, 230, false⟩], [], 3, 1⟩
      100 130).1 ⟨1, 100, 130, true⟩ (by decide)).1 rfl
  · exact ((find_or_create_slot_spec ⟨[⟨1, 100, 130, true⟩, ⟨2, 200, 230, false⟩], [], 3, 1⟩
      200 230).1 ⟨2, 200, 230, false⟩ (by decide)).2 rfl
  · exact ((find_or_create_slot_spec ⟨[⟨1, 100, 130, true⟩, ⟨2, 200, 230, false⟩], [], 3, 1⟩
      110 140).2 (by decide)).1 ⟨⟨1, 100, 130, true⟩, by decide, rfl, by decide, by decide⟩
  · have := ((find_or_create_slot_spec ⟨[⟨1, 100, 130, true⟩, ⟨2, 200, 230, false⟩], [], 3, 1⟩
      210 240).2 (by decide)).2 (by decide)
    rw [this]

/-- C5: the onboarding step machine never advances on invalid input, along the
fixed chain `awaiting_name → awaiting_age → awaiting_sex → awaiting_email →
completed`.  An empty, single-token, or non-alphabetic name re-prompts with
the step untouched and no profile write; `awaiting_age` advances (to
`awaiting_sex` only) exactly when the stripped body is a digit string whose
value lies in 1..120; `awaiting_sex` advances exactly on a case-insensitive
member of male/female/other; `awaiting_email` completes exactly on a string
matching the local-at-domain-dot-tld pattern. -/
theorem onboarding_guards (body : String) :
    ((pyStrip body = "" ∨ (pySplit (pyStrip body)).length = 1 ∨
        (removeSpaces (pyStrip body)).toList.any (fun c => !c.isAlpha) = true) →
      onboardingHandle "awaiting_name" body = ⟨["NAME_INVALID"], none, [], false⟩) ∧
    (validFullName (pyStrip body) = true →
      onboardingHandle "awaiting_name" body =
        ⟨["ASK_AGE"], some "awaiting_age", [ProfWrite.name (pyStrip body)], false⟩) ∧
    (validAge (pyStrip body) = true →
      onboardingHandle "awaiting_age" body =
        ⟨["ASK_SEX"], some "awaiting_sex", [ProfWrite.age (digitsToNat (pyStrip body))], false⟩) ∧
    (validAge (pyStrip body) = false →
      onboardingHandle "awaiting_age" body = ⟨["AGE_INVALID"], none, [], false⟩) ∧
    ((pyLower (pyStrip body) == "male" || pyLower (pyStrip body) == "female" ||
        pyLower (pyStrip body) == "other") = true →
      onboardingHandle "awaiting_sex" body =
        ⟨["ASK_EMAIL"], some "awaiting_email",
         [ProfWrite.gender (pyCapitalize (pyLower (pyStrip body)))], false⟩) ∧
    ((pyLower (pyStrip body) == "male" || pyLower (pyStrip body) == "female" ||
        pyLower (pyStrip body) == "other") = false →
      onboardingHandle "awaiting_sex" body = ⟨["SEX_INVALID"], none, [], false⟩) ∧
    (emailMatch (pyStrip body) = true →
      onboardingHandle "awaiting_email" body =
        ⟨["PROFILE_COMPLETE"], some "completed", [ProfWrite.email (pyStrip body)], true⟩) ∧
    (emailMatch (pyStrip body) = false →
      onboardingHandle "awaiting_email" body = ⟨["EMAIL_INVALID"], none, [], false⟩) := by
  have hname : onboardingHandle "awaiting_name" body =
      (if validFullName (pyStrip body) then
        ⟨["ASK_AGE"], some "awaiting_age", [ProfWrite.name (pyStrip body)], false⟩
       else ⟨["NAME_INVALID"], none, [], false⟩) := rfl
  have hage : onboardingHandle "awaiting_age" body =
      (if validAge (pyStrip body) then
        ⟨["ASK_SEX"], some "awaiting_sex", [ProfWrite.age (digitsToNat (pyStrip body))], false⟩
       else ⟨["AGE_INVALID"], none, [], false⟩) := rfl
  have hsex : onboardingHandle "awaiting_sex" body =
      (if (pyLower (pyStrip body) == "male" || pyLower (pyStrip body) == "female" ||
            pyLower (pyStrip body) == "other") then
        ⟨["ASK_EMAIL"], some "awaiting_email",
         [ProfWrite.gender (pyCapitalize (pyLower (pyStrip body)))], false⟩
       else ⟨["SEX_INVALID"], none, [], false⟩) := rfl
  have hemail : onboardingHandle "awaiting_email" body =
      (if emailMatch (pyStrip body) then
        ⟨["PROFILE_COMPLETE"], some "completed", [ProfWrite.email (pyStrip body)], true⟩
       else ⟨["EMAIL_INVALID"], none, [], false⟩) := rfl
  refine ⟨?_, ?_, ?_, ?_, ?_, ?_, ?_, ?_⟩
  · intro h
    have hv : validFullName (pyStrip body) = false := by
      rcases h with h | h | h
      · have h0 : pySplit (pyStrip body) = [] := by
          rw [h]
          decide
        simp [validFullName, h0]
      · simp [validFullName, h]
      · have hall : (removeSpaces (pyStrip body)).toList.all Char.isAlpha = false := by
          rw [List.all_eq_false]
          obtain ⟨c, hc, hcn⟩ := List.any_eq_true.mp h
          exact ⟨c, hc, by simpa using hcn⟩
        unfold validFullName
        rw [hall, Bool.and_false]
    rw [hname, if_neg (by simp [hv])]
  · intro h
    rw [hname, if_pos (by simp [h])]
  · intro h
    rw [hage, if_pos (by simp [h])]
  · intro h
    rw [hage, if_neg (by simp [h])]
  · intro h
    rw [hsex, if_pos (by simp [h])]
  · intro h
    rw [hsex, if_neg (by simp [h])]
  · intro h
    rw [hemail, if_pos (by simp [h])]
  · intro h
    rw [hemail, if_neg (by simp [h])]

/-- C5 witness: concrete turns.  "Bob" (single token) and "B0b Smith"
(non-alphabetic) re-prompt without advancing; "Bob Smith", "35", "FEMALE" and
"bob@x.com" advance one step each; "121" and "not-an-email" do not. -/
theorem onboarding_guards_witness :
    onboardingHandle "awaiting_name" "Bob" = ⟨["NAME_INVALID"], none, [], false⟩ ∧
    onboardingHandle "awaiting_name" "B0b Smith" = ⟨["NAME_INVALID"], none, [], false⟩ ∧
    onboardingHandle "awaiting_name" "Bob Smith" =
      ⟨["ASK_AGE"], some "awaiting_age", [ProfWrite.name "Bob Smith"], false⟩ ∧
    onboardingHandle "awaiting_age" "35" =
      ⟨["ASK_SEX"], some "awaiting_sex", [ProfWrite.age 35], false⟩ ∧
    onboardingHandle "awaiting_age" "121" = ⟨["AGE_INVALID"], none, [], false⟩ ∧
    onboardingHandle "awaiting_sex" "FEMALE" =
      ⟨["ASK_EMAIL"], some "awaiting_email", [ProfWrite.gender "Female"], false⟩ ∧
    onboardingHandle "awaiting_email" "not-an-email" = ⟨["EMAIL_INVALID"], none, [], false⟩ ∧
    onboardingHandle "awaiting_email" "bob@x.com" =
      ⟨["PROFILE_COMPLETE"], some "completed", [ProfWrite.email "bob@x.com"], true⟩ :=
  ⟨(onboarding_guards "Bob").1 (Or.inr (Or.inl (by decide))),
   (onboarding_guards "B0b Smith").1 (Or.inr (Or.inr (by decide))),
   (onboarding_guards "Bob Smith").2.1 (by decide),
   (onboarding_guards "35").2.2.1 (by decide),
   (onboarding_guards "121").2.2.2.1 (by decide),
   (onboarding_guards "FEMALE").2.2.2.2.1 (by decide),
   (onboarding_guards "not-an-email").2.2.2.2.2.2.2 (by decide),
   (onboarding_guards "bob@x.com").2.2.2.2.2.2.1 (by decide)⟩

/-- `find_or_create_availability_slot` never touches the appointments table. -/
theorem find_or_create_appointments (db : DB) (st et : Int) :
    (find_or_create_availability_slot db st et).2.appointments = db.appointments := by
  simp only [find_or_create_availability_slot]
  split
  · split <;> rfl
  · split <;> rfl

/-- A successful `book_slot` call appends exactly one appointment row. -/
theorem book_slot_success_appends (db : DB) (sid pid : Nat) (ins : InsertOutcome)
    (h : (book_slot db sid pid ins).1.isSome = true) :
    (book_slot db sid pid ins).2.appointments.length = db.appointments.length + 1 := by
  simp only [book_slot] at h ⊢
  by_cases he : db.slots.filter (fun s => s.id == sid && !s.is_booked) = []
  · rw [dif_pos he] at h
    simp at h
  · rw [dif_neg he] at h ⊢
    cases ins with
    | ok => simp
    | emptyData => simp at h
    | raises => simp at h

/-- C6: in the `awaiting_time_selection` step, an unparseable time, a parsed
time whose local instant falls outside the clinic window `[10, 22)`, or one
lying in the past, is rejected with the explanatory reply and causes no state
change: the patient row (step and booking context) and the store are exactly
as before, and no slot or appointment row is created or mutated.  Moreover
any change at all to the patient row in this step implies the booking calls
succeeded: the step was reset to `start`, the context cleared, and exactly
one appointment row was appended. -/
theorem time_selection_rejection_frame (p : PatientState) (env : Env) (db : DB) :
    (env.parsedTime = none →
      awaiting_time_selection_handler p env db = (Except.ok ["TIME_NOT_UNDERSTOOD"], p, db)) ∧
    (∀ h mi y mo d, env.parsedTime = some (h, mi) →
      p.ctx.year = some y → p.ctx.month = some mo → p.ctx.day = some d →
      validDateTime y mo d h mi = true →
      (¬(10 ≤ h ∧ h < 22) ∨ localMinutes y mo d h mi < env.nowLocalMin) →
      ((awaiting_time_selection_handler p env db).1 = Except.ok ["CLINIC_HOURS_10_TO_22"] ∨
       (awaiting_time_selection_handler p env db).1 = Except.ok ["TIME_IN_PAST"]) ∧
      (awaiting_time_selection_handler p env db).2.1 = p ∧
      (awaiting_time_selection_handler p env db).2.2 = db) ∧
    (∀ r p' db', awaiting_time_selection_handler p env db = (r, p', db') → p' ≠ p →
      p'.onboarding_step = "start" ∧ p'.ctx = {} ∧
      db'.appointments.length = db.appointments.length + 1) := by
  refine ⟨?_, ?_, ?_⟩
  · intro hpt
    simp only [awaiting_time_selection_handler, hpt]
  · intro h mi y mo d hpt hy hmo hd hvalid hrej
    have hred : awaiting_time_selection_handler p env db =
        (if !validDateTime y mo d h mi then (Except.error "ValueError", p, db)
         else if !(decide (10 ≤ h) && decide (h < 22)) then
           (Except.ok ["CLINIC_HOURS_10_TO_22"], p, db)
         else if localMinutes y mo d h mi < env.nowLocalMin then
           (Except.ok ["TIME_IN_PAST"], p, db)
         else
           let start_time_utc := localMinutes y mo d h mi - 330
           let end_time_utc := start_time_utc + 30
           match find_or_create_availability_slot db start_time_utc end_time_utc with
           | (none, db1) => (Except.ok ["SLOT_ALREADY_TAKEN"], p, db1)
           | (some slot, db1) =>
             match book_slot db1 slot.id p.id env.insertOutcome with
             | (none, db2) => (Except.ok ["TIME_JUST_BOOKED"], p, db2)
             | (some _, db2) =>
               (Except.ok [confirmedMsg env.calendarLink],
                { p with onboarding_step := "start", ctx := {} }, db2)) := by
      simp only [awaiting_time_selection_handler, hpt, hy, hmo, hd]
    rw [hred, if_neg (by simp [hvalid])]
    rcases hrej with hout | hpast
    · have hcond : (!(decide (10 ≤ h) && decide (h < 22))) = true := by
        push_neg at hout
        by_cases h10 : 10 ≤ h
        · simp [h10, Nat.not_lt.mpr (hout h10)]
        · simp [h10]
      rw [if_pos hcond]
      exact ⟨Or.inl rfl, rfl, rfl⟩
    · by_cases hwin : 10 ≤ h ∧ h < 22
      · rw [if_neg (by simp [hwin.1, hwin.2]), if_pos hpast]
        exact ⟨Or.inr rfl, rfl, rfl⟩
      · have hcond : (!(decide (10 ≤ h) && decide (h < 22))) = true := by
          push_neg at hwin
          by_cases h10 : 10 ≤ h
          · simp [h10, Nat.not_lt.mpr (hwin h10)]
          · simp [h10]
        rw [if_pos hcond]
        exact ⟨Or.inl rfl, rfl, rfl⟩
  · intro r p' db' heq hne
    rcases hpt : env.parsedTime with _ | ⟨h, mi⟩
    all_goals rcases hy : p.ctx.year with _ | y
    all_goals rcases hmo : p.ctx.month with _ | mo
    all_goals rcases hd : p.ctx.day with _ | d
    all_goals simp only [awaiting_time_selection_handler, hpt, hy, hmo, hd] at heq
    all_goals try (cases heq; exact absurd rfl hne)
    by_cases hv : validDateTime y mo d h mi
    case neg =>
      rw [if_pos (by simp [hv])] at heq
      cases heq
      exact absurd rfl hne
    case pos =>
      rw [if_neg (by simp [hv])] at heq
      by_cases hw : (!(decide (10 ≤ h) && decide (h < 22))) = true
      · rw [if_pos hw] at heq
        cases heq
        exact absurd rfl hne
      · rw [if_neg hw] at heq
        by_cases hp : localMinutes y mo d h mi < env.nowLocalMin
        · rw [if_pos hp] at heq
          cases heq
          exact absurd rfl hne
        · rw [if_neg hp] at heq
          rcases hfo : find_or_create_availability_slot db
              (localMinutes y mo d h mi - 330) (localMinutes y mo d h mi - 330 + 30)
            with ⟨os, db1⟩
          rw [hfo] at heq
          rcases os with _ | slot
          · cases heq
            exact absurd rfl hne
          · dsimp only at heq
            rcases hbk : book_slot db1 slot.id p.id env.insertOutcome with ⟨oa, db2⟩
            rw [hbk] at heq
            rcases oa with _ | a
            · cases heq
              exact absurd rfl hne
            · cases heq
              refine ⟨rfl, rfl, ?_⟩
              have h1 : db1.appointments = db.appointments := by
                have := find_or_create_appointments db
                  (localMinutes y mo d h mi - 330) (localMinutes y mo d h mi - 330 + 30)
                rw [hfo] at this
                exact this
              have h2 := book_slot_success_appends db1 slot.id p.id env.insertOutcome
                (by rw [hbk]; rfl)
              rw [hbk] at h2
              rw [h2, h1]

/-- C6 witness: with context 2025-08-15 and parsed time 23:00 (outside the
clinic window), the request is rejected and the patient row and store are
untouched. -/
theorem time_selection_rejection_frame_witness :
    ((awaiting_time_selection_handler
        { id := 1, onboarding_step := "awaiting_time_selection", onboarding_completed := true,
          ctx := { year := some 2025, month := some 8, day := some 15 } }
        { parsedTime := some (23, 0) } ⟨[], [], 1, 1⟩).1 =
          Except.ok ["CLINIC_HOURS_10_TO_22"] ∨
      (awaiting_time_selection_handler
        { id := 1, onboarding_step := "awaiting_time_selection", onboarding_completed := true,
          ctx := { year := some 2025, month := some 8, day := some 15 } }
        { parsedTime := some (23, 0) } ⟨[], [], 1, 1⟩).1 = Except.ok ["TIME_IN_PAST"]) ∧
    (awaiting_time_selection_handler
        { id := 1, onboarding_step := "awaiting_time_selection", onboarding_completed := true,
          ctx := { year := some 2025, month := some 8, day := some 15 } }
        { parsedTime := some (23, 0) } ⟨[], [], 1, 1⟩).2.1 =
      { id := 1, onboarding_step := "awaiting_time_selection", onboarding_completed := true,
        ctx := { year := some 2025, month := some 8, day := some 15 } } ∧
    (awaiting_time_selection_handler
        { id := 1, onboarding_step := "awaiting_time_selection", onboarding_completed := true,
          ctx := { year := some 2025, month := some 8, day := some 15 } }
        { parsedTime := some (23, 0) } ⟨[], [], 1, 1⟩).2.2 = ⟨[], [], 1, 1⟩ :=
  (time_selection_rejection_frame
      { id := 1, onboarding_step := "awaiting_time_selection", onboarding_completed := true,
        ctx := { year := some 2025, month := some 8, day := some 15 } }
      { parsedTime := some (23, 0) } ⟨[], [], 1, 1⟩).2.1
    23 0 2025 8 15 rfl rfl rfl rfl (by decide) (Or.inl (by decide))

/-- C7: for an onboarding-completed patient whose classified intent lowers to
`greeting` while the current step is neither `start` nor `completed`, the
webhook body performs the forced reset — step set to `start`, booking context
cleared, store untouched — regardless of the step value (in particular for
every `awaiting_*` step), since this branch precedes all step-local parsing
in the dispatch chain. -/
theorem greeting_forced_reset (p : PatientState) (body : String) (db : DB) (env : Env)
    (hc : p.onboarding_completed = true) (hpf : env.patientFound = true)
    (hfl : env.fault = none)
    (hint : pyLower (analyze_message body (some p.onboarding_step) false
      env.rx env.outcome).intent = "greeting")
    (h1 : p.onboarding_step ≠ "start") (h2 : p.onboarding_step ≠ "completed") :
    pipelineBody p body db env =
      (Except.ok ["RESET_START_OVER"],
       { p with onboarding_step := "start", ctx := {} }, db) := by
  have e1 : pipelineBody p body db env =
      routeCompleted p body
        (pyLower (analyze_message body (some p.onboarding_step) false env.rx env.outcome).intent)
        db env := by
    simp [pipelineBody, hfl, hpf, hc]
  rw [e1, hint]
  simp only [routeCompleted]
  rw [if_pos (by simp [h1, h2])]

/-- C7 witness: a completed patient mid-booking (awaiting a month choice) who
sends a greeting is reset to `start` with a cleared context. -/
theorem greeting_forced_reset_witness :
    pipelineBody
      { id := 1, full_name := "Bob Smith", onboarding_step := "awaiting_month_selection",
        onboarding_completed := true,
        ctx := { month_options := some [("August", 2025, 8)] } }
      "hello" ⟨[], [], 1, 1⟩ { outcome := ClassifierOutcome.ok "Greeting" [] } =
    (Except.ok ["RESET_START_OVER"],
     { id := 1, full_name := "Bob Smith", onboarding_step := "start",
       onboarding_completed := true, ctx := {} }, ⟨[], [], 1, 1⟩) :=
  greeting_forced_reset
    { id := 1, full_name := "Bob Smith", onboarding_step := "awaiting_month_selection",
      onboarding_completed := true,
      ctx := { month_options := some [("August", 2025, 8)] } }
    "hello" ⟨[], [], 1, 1⟩ { outcome := ClassifierOutcome.ok "Greeting" [] }
    rfl rfl rfl (by decide) (by decide) (by decide)

/-- C9: the webhook's `try`/`except` boundary — every request produces a reply
payload: when the body ends in an uncaught exception the caller receives
exactly the single generic apology, and when it completes the caller receives
exactly the body's messages; no error is ever propagated. -/
theorem webhook_error_boundary (p : PatientState) (body : String) (db : DB) (env : Env) :
    (∀ e p' db', pipelineBody p body db env = (Except.error e, p', db') →
       whatsapp_webhook p body db env = ([apologyMsg], p', db')) ∧
    (∀ msgs p' db', pipelineBody p body db env = (Except.ok msgs, p', db') →
       whatsapp_webhook p body db env = (msgs, p', db')) := by
  constructor
  · intro e p' db' h
    simp [whatsapp_webhook, h]
  · intro msgs p' db' h
    simp [whatsapp_webhook, h]

/-- C9 witness: an injected infrastructure exception yields the generic
apology reply. -/
theorem webhook_error_boundary_witness :
    whatsapp_webhook { id := 1 } "hi" ⟨[], [], 1, 1⟩ { fault := some "boom" } =
      ([apologyMsg], { id := 1 }, ⟨[], [], 1, 1⟩) :=
  (webhook_error_boundary { id := 1 } "hi" ⟨[], [], 1, 1⟩ { fault := some "boom" }).1
    "boom" { id := 1 } ⟨[], [], 1, 1⟩ rfl


/-- A key present as a pair in an association list is found by `lookupEnt`. -/
theorem lookupEnt_isSome_of_mem {e : List (String × Option String)} {k : String}
    {v : Option String} (h : (k, v) ∈ e) : (lookupEnt e k).isSome = true := by
  induction e with
  | nil => cases h
  | cons kv t ih =>
    by_cases hk : (kv.1 == k) = true
    · simp [lookupEnt, hk]
    · rcases List.mem_cons.mp h with h1 | h1
      · rw [← h1] at hk
        simp at hk
      · simp only [lookupEnt, hk, if_false, Bool.false_eq_true]
        exact ih h1

/-- A key found in the left part of an appended association list is found in
the whole. -/
theorem lookupEnt_append_left {a b : List (String × Option String)} {k : String}
    (h : (lookupEnt a k).isSome = true) : (lookupEnt (a ++ b) k).isSome = true := by
  induction a with
  | nil => simp [lookupEnt] at h
  | cons kv t ih =>
    by_cases hk : (kv.1 == k) = true
    · simp [lookupEnt, hk]
    · simp only [lookupEnt, hk, if_false, Bool.false_eq_true] at h
      simp only [List.cons_append, lookupEnt, hk, if_false, Bool.false_eq_true]
      exact ih h

/-- Lookup passes to the right part when the left part lacks the key. -/
theorem lookupEnt_append_right {a b : List (String × Option String)} {k : String}
    (h : lookupEnt a k = none) : lookupEnt (a ++ b) k = lookupEnt b k := by
  induction a with
  | nil => simp
  | cons kv t ih =>
    by_cases hk : (kv.1 == k) = true
    · simp [lookupEnt, hk] at h
    · simp only [lookupEnt, hk, if_false, Bool.false_eq_true] at h
      simp only [List.cons_append, lookupEnt, hk, if_false, Bool.false_eq_true]
      exact ih h

/-- `setEnt` never removes a key: any key found before the merge is found
after it. -/
theorem lookupEnt_setEnt_isSome (e : List (String × Option String)) (k k' : String)
    (v : Option String) (h : (lookupEnt e k').isSome = true) :
    (lookupEnt (setEnt e k v) k').isSome = true := by
  unfold setEnt
  by_cases hs : (lookupEnt e k).isSome = true
  · rw [if_pos hs]
    clear hs
    induction e with
    | nil => simp [lookupEnt] at h
    | cons kv t ih =>
      by_cases hk : kv.1 = k'
      · by_cases hkk : kv.1 = k
        · have hky : k = k' := hkk ▸ hk
          simp [lookupEnt, hkk, hky]
        · have hkk' : ¬k' = k := hk ▸ hkk
          simp [lookupEnt, hkk, hk, hkk']
      · simp only [lookupEnt, hk, if_false] at h
        rw [if_neg (by simp [hk])] at h
        by_cases hkk : kv.1 = k
        · by_cases hky : k = k'
          · simp [lookupEnt, hkk, hky]
          · simp only [List.map_cons, lookupEnt]
            rw [if_neg (by simp [hkk, hky])]
            exact ih h
        · simp only [List.map_cons, lookupEnt]
          rw [if_neg (by simp [hkk, hk])]
          exact ih h
  · rw [if_neg hs]
    exact lookupEnt_append_left h

/-- Every branch of the fallback tail returns an entity dict built from
`base_entities`, hence containing every expected key. -/
theorem fallbackTail_complete (message : String) (cs : Option String) (flag : Bool)
    (rx : RegexOracle) (k : String)
    (hbase : (lookupEnt base_entities k).isSome = true) :
    (lookupEnt (fallbackTail message cs flag rx).entities k).isSome = true := by
  have hset1 : ∀ k1 v1, (lookupEnt (setEnt base_entities k1 v1) k).isSome = true :=
    fun k1 v1 => lookupEnt_setEnt_isSome _ _ _ _ hbase
  have hset3 : ∀ k1 v1 k2 v2 k3 v3,
      (lookupEnt (setEnt (setEnt (setEnt base_entities k1 v1) k2 v2) k3 v3) k).isSome = true :=
    fun k1 v1 k2 v2 k3 v3 => lookupEnt_setEnt_isSome _ _ _ _
      (lookupEnt_setEnt_isSome _ _ _ _ (lookupEnt_setEnt_isSome _ _ _ _ hbase))
  unfold fallbackTail
  by_cases c1 : (has_keep_request (message_lower message) && stepStartsUpd cs) = true
  · rw [if_pos c1]
    exact hbase
  rw [if_neg c1]
  by_cases c2 : rx.emailFound.isSome = true
  · rw [if_pos c2]
    dsimp only
    exact hset1 _ _
  rw [if_neg c2]
  by_cases c3 : ((gender_match (message_lower message)).isSome
      && cs == some "gender") = true
  · rw [if_pos c3]
    dsimp only
    exact hset1 _ _
  rw [if_neg c3]
  by_cases c4 : ((blood_group_match (message_lower message)).isSome
      && cs == some "blood_group") = true
  · rw [if_pos c4]
    dsimp only
    exact hset1 _ _
  rw [if_neg c4]
  by_cases c5 : ((has_day (message_lower message) && has_time (message_lower message) rx)
      || (has_date_word (message_lower message) && has_time (message_lower message) rx)
      || has_other_request (message_lower message)) = true
  · rw [if_pos c5]
    dsimp only
    exact hset3 _ _ _ _ _ _
  rw [if_neg c5]
  by_cases c6 : has_quick_booking (message_lower message) = true
  · rw [if_pos c6]
    exact hbase
  rw [if_neg c6]
  by_cases c7 : has_profile_request (message_lower message) = true
  · rw [if_pos c7]
    exact hbase
  rw [if_neg c7]
  by_cases c8 : (cs == some "allergies" || cs == some "update_allergies") = true
  · rw [if_pos c8]
    dsimp only
    exact hset1 _ _
  rw [if_neg c8]
  by_cases c9 : (cs == some "current_symptoms" && has_symptoms (message_lower message)
      && !numberValue (message_lower message)) = true
  · rw [if_pos c9]
    dsimp only
    exact hset1 _ _
  rw [if_neg c9]
  by_cases c10 : (message_lower message == "hi" || message_lower message == "hello"
      || message_lower message == "hey" || message_lower message == "start") = true
  · rw [if_pos c10]
    exact hbase
  rw [if_neg c10]
  by_cases c11 : (["book appointment", "book", "appointment", "yes"].any
      (fun w => strContains (message_lower message) w)) = true
  · rw [if_pos c11]
    exact hbase
  rw [if_neg c11]
  exact hbase

/-- Every branch of the rule-based fallback returns an entity dict containing
every expected key. -/
theorem fallback_complete (message : String) (cs : Option String) (flag : Bool)
    (rx : RegexOracle) (k : String)
    (hk : k ∈ ["slot_number", "profile_choice", "email", "age", "gender", "blood_group",
      "current_symptoms", "allergies", "date_preference", "time_preference", "custom_request"])
    (hbase : (lookupEnt base_entities k).isSome = true) :
    (lookupEnt (get_fallback_response message cs flag rx).entities k).isSome = true := by
  have hset1 : ∀ k1 v1, (lookupEnt (setEnt base_entities k1 v1) k).isSome = true :=
    fun k1 v1 => lookupEnt_setEnt_isSome _ _ _ _ hbase
  have htail : (lookupEnt (fallbackTail message cs flag rx).entities k).isSome = true :=
    fallbackTail_complete message cs flag rx k hbase
  unfold get_fallback_response
  by_cases b1 : (cs == some "awaiting_custom_date") = true
  · rw [if_pos b1]
    fin_cases hk <;> rfl
  rw [if_neg b1]
  by_cases b2 : (message_lower message == "other" || message_lower message == "others"
      || message_lower message == "different") = true
  · rw [if_pos b2]
    dsimp only
    exact hset1 _ _
  rw [if_neg b2]
  by_cases b3 : numberValue (message_lower message) = true
  · rw [if_pos b3]
    by_cases b4 : (cs == some "current_symptoms") = true
    · rw [if_pos b4]
      by_cases b5 : (message_lower message == "1" || message_lower message == "2"
          || message_lower message == "3" || message_lower message == "4"
          || message_lower message == "5") = true
      · rw [if_pos b5]
        dsimp only
        exact hset1 _ _
      · rw [if_neg b5]
        exact htail
    rw [if_neg b4]
    by_cases b6 : (flag && (cs == some "start" || cs.isNone || cs == some "completed")) = true
    · rw [if_pos b6]
      by_cases b7 : (message_lower message == "1" || message_lower message == "2"
          || message_lower message == "3" || message_lower message == "4") = true
      · rw [if_pos b7]
        dsimp only
        exact hset1 _ _
      · rw [if_neg b7]
        exact htail
    rw [if_neg b6]
    by_cases b8 : (cs == some "age") = true
    · rw [if_pos b8]
      by_cases b9 : (decide (1 ≤ digitsToNat (message_lower message))
          && decide (digitsToNat (message_lower message) ≤ 120)) = true
      · rw [if_pos b9]
        dsimp only
        exact hset1 _ _
      · rw [if_neg b9]
        exact htail
    rw [if_neg b8]
    exact htail
  rw [if_neg b3]
  exact htail

/-- C8: the intent classification adapter is total and structural.  For every
message, context step, onboarding flag, regex-oracle outcome and classifier
outcome — including every failure mode, which routes to the deterministic
rule-based fallback — `analyze_message` returns a structured result whose
entity map contains every expected entity key (missing ones filled with the
explicit empty value `None`); it never raises, being a total function of its
inputs. -/
theorem analyze_message_structure (message : String) (cs : Option String) (flag : Bool)
    (rx : RegexOracle) (outcome : ClassifierOutcome) :
    ∀ k ∈ required_entities.map Prod.fst,
      (lookupEnt (analyze_message message cs flag rx outcome).entities k).isSome = true := by
  intro k hk
  have hk' : k ∈ ["slot_number", "profile_choice", "email", "age", "gender", "blood_group",
      "current_symptoms", "allergies", "date_preference", "time_preference",
      "custom_request"] := by
    simpa [required_entities] using hk
  have hbase : (lookupEnt base_entities k).isSome = true := by
    fin_cases hk' <;> rfl
  cases outcome with
  | failure => exact fallback_complete message cs flag rx k hk' hbase
  | ok intent ents =>
    simp only [analyze_message]
    by_cases h : (lookupEnt ents k).isSome = true
    · exact lookupEnt_append_left h
    · have hnone : lookupEnt ents k = none := by
        cases hx : lookupEnt ents k with
        | none => rfl
        | some v =>
          rw [hx] at h
          simp at h
      rw [lookupEnt_append_right hnone]
      obtain ⟨kv, hm, hfst⟩ := List.mem_map.mp hk
      obtain ⟨k1, v1⟩ := kv
      simp only at hfst
      subst hfst
      have hmf : (k1, v1) ∈ required_entities.filter
          (fun kv => (lookupEnt ents kv.1).isNone) := by
        refine List.mem_filter.mpr ⟨hm, ?_⟩
        simp [hnone]
      exact lookupEnt_isSome_of_mem hmf

/-- C8 witness: the fallback path on free text has every key (checked for
`email`), and a parsed classifier result missing most keys has them filled
(checked for `custom_request`). -/
theorem analyze_message_structure_witness :
    (lookupEnt (analyze_message "hola" (some "start") false {}
        ClassifierOutcome.failure).entities "email").isSome = true ∧
    (lookupEnt (analyze_message "2" none false {}
        (ClassifierOutcome.ok "select_choice" [("slot_number", some "2")])).entities
      "custom_request").isSome = true :=
  ⟨analyze_message_structure "hola" (some "start") false {} ClassifierOutcome.failure
      "email" (by decide),
   analyze_message_structure "2" none false {}
      (ClassifierOutcome.ok "select_choice" [("slot_number", some "2")])
      "custom_request" (by decide)⟩

/-- C10: reading the ephemeral booking context never fails.  With the `notes`
column absent (`None`) or empty the context is the empty dict; with a string
that fails to parse as JSON the caught decode error also yields the empty
dict; with a string holding valid JSON the parsed value is returned. -/
theorem get_booking_context_total (notes : Option String) :
    (notes = none → get_booking_context notes = JValue.obj []) ∧
    (∀ s, notes = some s →
      (s = "" → get_booking_context notes = JValue.obj []) ∧
      (jsonLoads s = none → get_booking_context notes = JValue.obj []) ∧
      (∀ v, jsonLoads s = some v → get_booking_context notes = v)) := by
  constructor
  · intro h
    subst h
    rfl
  · intro s hs
    subst hs
    refine ⟨?_, ?_, ?_⟩
    · intro h
      subst h
      rfl
    · intro h
      simp only [get_booking_context]
      by_cases he : (s == "") = true
      · rw [if_pos he]
      · rw [if_neg he, h]
    · intro v hv
      simp only [get_booking_context]
      by_cases he : (s == "") = true
      · have hse : s = "" := by simpa using he
        subst hse
        rw [show jsonLoads "" = none from rfl] at hv
        cases hv
      · rw [if_neg he, hv]

/-- C10 witness: absent, empty, corrupted and valid `notes` values. -/
theorem get_booking_context_total_witness :
    get_booking_context none = JValue.obj [] ∧
    get_booking_context (some "") = JValue.obj [] ∧
    get_booking_context (some "not json \x7b") = JValue.obj [] ∧
    get_booking_context (some "\x7b\"year\": 2025\x7d") =
      JValue.obj [("year", JValue.num "2025")] :=
  ⟨(get_booking_context_total none).1 rfl,
   ((get_booking_context_total (some "")).2 "" rfl).1 rfl,
   ((get_booking_context_total (some "not json \x7b")).2 _ rfl).2.1 (by rfl),
   ((get_booking_context_total (some "\x7b\"year\": 2025\x7d")).2 _ rfl).2.2 _ (by rfl)⟩
end DoctorAI
